import Mathlib

/-!
Verification of the Streamlit demo repository against its specification.

The file shallowly embeds the logic of src/app.py (synthetic 30-day series,
KPI aggregates, card truncation, the swappable placeholder slot, and the
script's treatment of session state), together with the components the
specification describes whose code is not under src/ (counter callbacks,
EMI form, to-do list, CSV preview); those are modelled from the spec and
marked as such in their doc comments.

Dates are modelled as epoch-day integers, pandas/numpy floats as rationals,
and the numpy generator seeded with 42 as an abstract family of draw
streams indexed by the seed, so that determinism claims quantify over the
algorithm while the seed stays the constant the code hardcodes.
-/

namespace App

/-- Truncation toward zero, the semantics of numpy astype(int) on floats. -/
def truncToZero (q : ℚ) : ℤ := if q < 0 then ⌈q⌉ else ⌊q⌋

/-- The execution environment of one run of the script: the current date
(epoch day), an OS-entropy source that a *seedless* generator would draw
from, and the widget values the framework hands the script. -/
structure Env where
  today : ℤ
  entropy : ℕ → ℤ
  showHelp : Bool
  cardCount : ℕ
  useWeightedCols : Bool
  swapPressed : Bool

/-- The fixed seed of line 17 of src/app.py: np.random.default_rng(42). -/
def seed : ℕ := 42

/-- pd.date_range(today - timedelta(days=29), today, freq="D"): both
endpoints inclusive, one entry per day. -/
def dateRange (today : ℤ) : List ℤ :=
  (List.range 30).map (fun (i : ℕ) => today - 29 + (i : ℤ))

section Script

/- The numpy PCG64 draw streams, abstracted: intStream s i is the i-th
value of rng.integers(80, 220, ...) for generator seed s, normStream s i
the i-th value of rng.normal(0, 25, ...). -/
variable (intStream : ℕ → ℕ → ℤ) (normStream : ℕ → ℕ → ℚ)

/-- sales[i] of line 20-22: (rng.integers(80,220,size=30) +
np.linspace(0,40,30)).astype(int), with linspace(0,40,30) i = 40*i/29. -/
def salesAt (i : ℕ) : ℤ :=
  truncToZero ((intStream seed i : ℚ) + 40 * i / 29)

/-- revenue[i] of line 23: sales * (350 + rng.normal(0, 25, size=30)). -/
def revenueAt (i : ℕ) : ℚ :=
  (salesAt intStream i : ℚ) * (350 + normStream seed i)

/-- The sales column of the DataFrame. -/
def salesList : List ℤ := (List.range 30).map (salesAt intStream)

/-- The revenue column of the DataFrame. -/
def revenueList : List ℚ := (List.range 30).map (revenueAt intStream normStream)

/-- Day names by epoch day; epoch day 0 (1970-01-01) was a Thursday.
pandas day_name() yields these full English names. -/
def dayNames : List String :=
  ["Thursday", "Friday", "Saturday", "Sunday", "Monday", "Tuesday", "Wednesday"]

/-- df["date"].dt.day_name() for one date. -/
def dayName (d : ℤ) : String := dayNames.getD (d % 7).toNat ""

/-- The DataFrame built on lines 19-25 of src/app.py. -/
structure DFrame where
  dates : List ℤ
  sales : List ℤ
  revenue : List ℚ
  weekday : List String

/-- Lines 19-25: the DataFrame as a function of the run environment.  Only
the current date reaches the data; the generator is seeded with the
constant 42, so the entropy source of the environment is never consulted. -/
def mkDf (e : Env) : DFrame :=
  { dates := dateRange e.today
    sales := salesList intStream
    revenue := revenueList intStream normStream
    weekday := (dateRange e.today).map dayName }

end Script

/-- pandas Series.max() on a nonempty column: fold of the binary max over
the entries; the default is only reached on an empty column. -/
def seriesMax {α : Type} [LinearOrder α] (d : α) : List α → α
  | [] => d
  | h :: t => t.foldl max h

/-- pandas Series.mean(): sum divided by length. -/
def seriesMean (l : List ℚ) : ℚ := l.sum / l.length

section Script2

variable (intStream : ℕ → ℕ → ℤ) (normStream : ℕ → ℕ → ℚ)

/-- Lines 52-59 of src/app.py: the six KPI cards (label and numeric value
before string formatting), built from the DataFrame columns. -/
def kpisFull (e : Env) : List (String × ℚ) :=
  [("Total Sales (30d)", (↑((mkDf intStream normStream e).sales.sum) : ℚ)),
   ("Total Revenue (₹)", (mkDf intStream normStream e).revenue.sum),
   ("Avg / Day", seriesMean ((mkDf intStream normStream e).sales.map (fun (z : ℤ) => (z : ℚ)))),
   ("Best Day Sales", (↑(seriesMax (0 : ℤ) (mkDf intStream normStream e).sales) : ℚ)),
   ("Best Day Revenue (₹)", seriesMax 0 (mkDf intStream normStream e).revenue),
   ("Days", (↑((mkDf intStream normStream e).dates.length) : ℚ))]

/-- Line 59: the [:card_count] truncation of the KPI list. -/
def kpis (e : Env) : List (String × ℚ) :=
  (kpisFull intStream normStream e).take e.cardCount

end Script2

/-- Lines 195-202: the six product cards (name, rating, in-stock). -/
def productsFull : List (String × ℚ × Bool) :=
  [("Engine Oil", 46/10, true),
   ("Spark Plug", 43/10, true),
   ("Brake Pads", 39/10, false),
   ("Wiper Blade", 41/10, true),
   ("Air Filter", 44/10, true),
   ("Coolant", 42/10, true)]

/-- Line 202: the [:card_count] truncation of the product list. -/
def products (e : Env) : List (String × ℚ × Bool) :=
  productsFull.take e.cardCount

/-- The two content blocks the placeholder of lines 170-180 can hold: the
initial "Live slot" block and the post-press success/table block. -/
inductive SlotBlock where
  | live
  | swapped
deriving DecidableEq

/-- The sequence of writes the script issues into the st.empty() slot:
the live block is always written first (line 171); when the button reports
a press the swapped block is written into the same slot (lines 175-180). -/
def slotWrites (pressed : Bool) : List SlotBlock :=
  [SlotBlock.live] ++ (if pressed then [SlotBlock.swapped] else [])

/-- st.empty() semantics: each write replaces the slot's content, so what
is displayed is the last write (as a list of the blocks shown in the
region: empty if nothing was written). -/
def slotDisplayed (pressed : Bool) : List SlotBlock :=
  ((slotWrites pressed).getLast?).toList

/-- Modelled from the spec: a to-do item {text, done} of the to-do list
component, whose code is not under src/ (section 3 of the spec). -/
structure TodoItem where
  text : String
  done : Bool
deriving DecidableEq

/-- A session-state value: the integer counter or the to-do list. -/
inductive SVal where
  | int (n : ℤ)
  | todoList (l : List TodoItem)
deriving DecidableEq

/-- The framework's per-session key-value store. -/
abbrev SessionState : Type := List (String × SVal)

/-- Everything src/app.py renders that the claims mention: the DataFrame,
the truncated KPI and product card lists, the placeholder's displayed
block, whether tips are shown and the main column weights. -/
structure Page where
  df : DFrame
  kpiCards : List (String × ℚ)
  productCards : List (String × ℚ × Bool)
  slot : List SlotBlock
  tipsShown : Bool
  mainColWeights : List ℕ

section Script3

variable (intStream : ℕ → ℕ → ℤ) (normStream : ℕ → ℕ → ℚ)

/-- The whole page as a function of the run environment alone. -/
def renderPage (e : Env) : Page :=
  { df := mkDf intStream normStream e
    kpiCards := kpis intStream normStream e
    productCards := products e
    slot := slotDisplayed e.swapPressed
    tipsShown := e.showHelp
    mainColWeights := if e.useWeightedCols then [3, 1] else [1, 1] }

/-- One top-to-bottom run of src/app.py as a state transformer: the script
receives the session store and the environment and produces the store it
leaves behind together with the rendered page.  The script contains no
session-state access at all, so the store passes through untouched. -/
def appRun (s : SessionState) (e : Env) : SessionState × Page :=
  (s, renderPage intStream normStream e)

end Script3

namespace Counter

/-- Modelled from the spec: the counter component (sections 4.1 and 8),
whose code is not under src/.  The three callbacks on the session integer. -/
inductive COp where
  | inc
  | dec
  | reset
deriving DecidableEq

/-- increment() is counter += 1, decrement() is counter -= 1, reset()
sets counter = 0; no bounds checking. -/
def apply (c : ℤ) : COp → ℤ
  | COp.inc => c + 1
  | COp.dec => c - 1
  | COp.reset => 0

/-- The counter value after a sequence of callbacks, from the default 0. -/
def run (ops : List COp) : ℤ := ops.foldl apply 0

/-- The operations since the last reset (all of them if no reset occurred). -/
def afterLastReset (ops : List COp) : List COp :=
  (ops.reverse.takeWhile (fun o => o ≠ COp.reset)).reverse

/-- Number of increments minus number of decrements. -/
def score (ops : List COp) : ℤ :=
  (ops.count COp.inc : ℤ) - (ops.count COp.dec : ℤ)

end Counter

namespace Emi

/-- Modelled from the spec: the EMI form component (sections 4.3 and 8),
whose code is not under src/.  Monthly rate r = rAnnual / 1200; if r = 0
the EMI is P / n, otherwise P·r·(1+r)^n / ((1+r)^n − 1). -/
def emi (P rAnnual : ℚ) (n : ℕ) : ℚ :=
  let r := rAnnual / 1200
  if r = 0 then P / n else P * r * (1 + r) ^ n / ((1 + r) ^ n - 1)

end Emi

namespace Todo

/-- Python str.strip(): drop leading and trailing whitespace. -/
def pyStrip (s : String) : String :=
  ⟨((s.data.dropWhile Char.isWhitespace).reverse.dropWhile Char.isWhitespace).reverse⟩

/-- Modelled from the spec: add(text) of the to-do component (section 4.4),
whose code is not under src/: no-op when the trimmed text is empty,
otherwise appends {text, done:false}. -/
def add (t : String) (l : List TodoItem) : List TodoItem :=
  if pyStrip t = "" then l else l ++ [⟨t, false⟩]

/-- Modelled from the spec: clear_completed() of the to-do component
(section 4.4), whose code is not under src/: removes all items whose done
flag is true, keeping the rest in order. -/
def clearCompleted (l : List TodoItem) : List TodoItem :=
  l.filter (fun it => !it.done)

end Todo

namespace Csv

/-- What the CSV preview section renders: the instructional placeholder,
a table (row count, column count, up to ten preview rows), or the error
message shown when parsing failed. -/
inductive CsvOut where
  | placeholder
  | table (rows cols : ℕ) (preview : List (List String))
  | error (msg : String)
deriving DecidableEq

/-- Modelled from the spec: the CSV preview component (sections 4.2 and 7),
whose code is not under src/.  The parser is passed in as a function from
the uploaded bytes to rows or a failure reason (covering both malformed
delimited data and undecodable bytes); the try/except around the parse
turns a failure into a user-visible message carrying the reason, and the
session store is never touched. -/
def preview (parse : List ℕ → Except String (List (List String)))
    (upload : Option (List ℕ)) (s : SessionState) : SessionState × CsvOut :=
  match upload with
  | none => (s, CsvOut.placeholder)
  | some bytes =>
    match parse bytes with
    | Except.ok rows => (s, CsvOut.table rows.length (rows.headD []).length (rows.take 10))
    | Except.error reason => (s, CsvOut.error ("Error reading CSV: " ++ reason))

end Csv

/-! Theorems -/

/-- C1: the synthetic series is deterministic: the generator is seeded
with the constant 42, so for any two runs (any entropy sources, any widget
values) on the same calendar date the generated DataFrame (dates, sales,
revenue, weekday) is identical — it depends only on the seeded draw
streams and the current date. -/
theorem c1_series_deterministic (intStream : ℕ → ℕ → ℤ) (normStream : ℕ → ℕ → ℚ)
    (e1 e2 : Env) (h : e1.today = e2.today) :
    mkDf intStream normStream e1 = mkDf intStream normStream e2 := by
  simp only [mkDf, h]

/-- Witness for C1: two concrete runs with different entropy sources and
widget values but the same date produce the same DataFrame. -/
theorem c1_series_deterministic_witness :
    mkDf (fun _ _ => 0) (fun _ _ => 0) ⟨20000, fun _ => 0, true, 4, true, false⟩
      = mkDf (fun _ _ => 0) (fun _ _ => 0) ⟨20000, fun n => (n : ℤ) + 7, false, 6, false, true⟩ :=
  c1_series_deterministic (fun _ _ => 0) (fun _ _ => 0) _ _ rfl

/-- C2: the placeholder region shows exactly one of the two blocks at any
time: the live block before the press, the swapped block after, the two
never together. -/
theorem c2_slot_exclusive : ∀ pressed : Bool,
    slotDisplayed pressed = [if pressed then SlotBlock.swapped else SlotBlock.live] ∧
    (slotDisplayed pressed).length = 1 ∧
    slotDisplayed false = [SlotBlock.live] ∧
    slotDisplayed true = [SlotBlock.swapped] ∧
    ¬ (SlotBlock.live ∈ slotDisplayed pressed ∧ SlotBlock.swapped ∈ slotDisplayed pressed) := by
  intro pressed
  cases pressed <;> simp [slotDisplayed, slotWrites]

/-- C4: the series spans exactly 30 consecutive days ending today (first
date today − 29, last date today, each column 30 entries), and the weekday
column is the day name of each row's date. -/
theorem c4_thirty_days (intStream : ℕ → ℕ → ℤ) (normStream : ℕ → ℕ → ℚ) (e : Env) :
    (mkDf intStream normStream e).dates.length = 30 ∧
    (mkDf intStream normStream e).sales.length = 30 ∧
    (mkDf intStream normStream e).revenue.length = 30 ∧
    (mkDf intStream normStream e).weekday.length = 30 ∧
    (mkDf intStream normStream e).dates.head? = some (e.today - 29) ∧
    (mkDf intStream normStream e).dates.getLast? = some e.today ∧
    List.Chain' (fun a b => b = a + 1) (mkDf intStream normStream e).dates ∧
    List.Forall₂ (fun d w => w = dayName d) (mkDf intStream normStream e).dates
      (mkDf intStream normStream e).weekday := by
  refine ⟨by simp [mkDf, dateRange], by simp [mkDf, salesList],
    by simp [mkDf, revenueList], by simp [mkDf, dateRange], ?_, ?_, ?_, ?_⟩
  · rw [mkDf]
    rw [dateRange, show (30 : ℕ) = 29 + 1 from rfl, List.range_succ_eq_map]
    simp
  · rw [mkDf]
    rw [dateRange, show (30 : ℕ) = 29 + 1 from rfl, List.range_succ, List.map_append]
    simp
  · rw [mkDf]
    rw [dateRange, List.chain'_map, show (30 : ℕ) = 29 + 1 from rfl,
      List.chain'_range_succ]
    intro m _
    push_cast
    ring
  · rw [mkDf]
    rw [List.forall₂_map_right_iff]
    exact List.forall₂_same.mpr (fun d _ => rfl)

/-- The fold of max over a list lands in the list or is the start value. -/
theorem foldl_max_mem {α : Type} [LinearOrder α] (l : List α) (a : α) :
    l.foldl max a ∈ a :: l := by
  induction l generalizing a with
  | nil => simp
  | cons b t ih =>
    have h := ih (max a b)
    rw [List.foldl_cons]
    rcases List.mem_cons.mp h with h1 | h1
    · rw [h1]
      rcases max_choice a b with h2 | h2 <;> rw [h2] <;> simp
    · exact List.mem_cons.mpr (Or.inr (List.mem_cons.mpr (Or.inr h1)))

/-- The fold of max over a list bounds the start value and every element. -/
theorem le_foldl_max {α : Type} [LinearOrder α] (l : List α) (a : α) :
    a ≤ l.foldl max a ∧ ∀ x ∈ l, x ≤ l.foldl max a := by
  induction l generalizing a with
  | nil => simp
  | cons b t ih =>
    obtain ⟨h1, h2⟩ := ih (max a b)
    refine ⟨le_trans (le_max_left a b) h1, ?_⟩
    intro x hx
    rcases List.mem_cons.mp hx with hxb | hx
    · rw [hxb]
      exact le_trans (le_max_right a b) h1
    · exact h2 x hx

/-- On a nonempty column, seriesMax is a member and an upper bound: it is
the maximum of the column. -/
theorem seriesMax_spec {α : Type} [LinearOrder α] (d : α) (l : List α) (h : l ≠ []) :
    seriesMax d l ∈ l ∧ ∀ x ∈ l, x ≤ seriesMax d l := by
  cases l with
  | nil => exact absurd rfl h
  | cons b t =>
    obtain ⟨h1, h2⟩ := le_foldl_max t b
    refine ⟨foldl_max_mem t b, ?_⟩
    intro x hx
    rcases List.mem_cons.mp hx with hxb | hx
    · rw [hxb]
      exact h1
    · exact h2 x hx

/-- C3: the KPI card values are the aggregates of the generated series:
Total Sales is the sum of the sales column, Total Revenue the sum of the
revenue column, Avg / Day the arithmetic mean of the sales column, and
Best Day Sales / Best Day Revenue the maxima (member and upper bound) of
the sales and revenue columns. -/
theorem c3_kpi_aggregates (intStream : ℕ → ℕ → ℤ) (normStream : ℕ → ℕ → ℚ) (e : Env) :
    ((kpisFull intStream normStream e).getD 0 ("", 0)).2
        = (↑((mkDf intStream normStream e).sales.sum) : ℚ) ∧
    ((kpisFull intStream normStream e).getD 1 ("", 0)).2
        = (mkDf intStream normStream e).revenue.sum ∧
    ((kpisFull intStream normStream e).getD 2 ("", 0)).2
        = ((mkDf intStream normStream e).sales.map (fun (z : ℤ) => (z : ℚ))).sum
            / ((mkDf intStream normStream e).sales.length : ℚ) ∧
    (∃ m : ℤ, ((kpisFull intStream normStream e).getD 3 ("", 0)).2 = (m : ℚ) ∧
      m ∈ (mkDf intStream normStream e).sales ∧
      ∀ x ∈ (mkDf intStream normStream e).sales, x ≤ m) ∧
    (((kpisFull intStream normStream e).getD 4 ("", 0)).2
        ∈ (mkDf intStream normStream e).revenue ∧
      ∀ x ∈ (mkDf intStream normStream e).revenue,
        x ≤ ((kpisFull intStream normStream e).getD 4 ("", 0)).2) := by
  have hslen : (mkDf intStream normStream e).sales.length = 30 := by
    simp [mkDf, salesList]
  have hrlen : (mkDf intStream normStream e).revenue.length = 30 := by
    simp [mkDf, revenueList]
  have hs : (mkDf intStream normStream e).sales ≠ [] := by
    intro h0; rw [h0] at hslen; simp at hslen
  have hr : (mkDf intStream normStream e).revenue ≠ [] := by
    intro h0; rw [h0] at hrlen; simp at hrlen
  obtain ⟨hmem, hub⟩ := seriesMax_spec 0 (mkDf intStream normStream e).sales hs
  obtain ⟨hmem2, hub2⟩ := seriesMax_spec (0 : ℚ) (mkDf intStream normStream e).revenue hr
  refine ⟨rfl, rfl, ?_, ⟨seriesMax 0 (mkDf intStream normStream e).sales, rfl, hmem, hub⟩,
    hmem2, hub2⟩
  simp only [kpisFull, List.getD_cons_succ, List.getD_cons_zero, seriesMean,
    List.length_map]

/-- C9: for every slider value from 3 to 6 the KPI and product card lists
are the first card_count entries of the corresponding six-element lists,
so exactly card_count cards of each kind are rendered. -/
theorem c9_card_truncation (intStream : ℕ → ℕ → ℤ) (normStream : ℕ → ℕ → ℚ) (e : Env)
    (h3 : 3 ≤ e.cardCount) (h6 : e.cardCount ≤ 6) :
    kpis intStream normStream e = (kpisFull intStream normStream e).take e.cardCount ∧
    (kpis intStream normStream e).length = e.cardCount ∧
    products e = productsFull.take e.cardCount ∧
    (products e).length = e.cardCount := by
  have hk : (kpisFull intStream normStream e).length = 6 := by simp [kpisFull]
  refine ⟨rfl, ?_, rfl, ?_⟩
  · rw [kpis, List.length_take, hk]
    omega
  · rw [products, List.length_take]
    simp only [productsFull, List.length_cons, List.length_nil]
    omega

/-- Witness for C9: with the default slider value 4, four KPI cards and
four product cards are rendered. -/
theorem c9_card_truncation_witness :
    (kpis (fun _ _ => 0) (fun _ _ => 0) ⟨20000, fun _ => 0, true, 4, true, false⟩).length = 4 ∧
    (products ⟨20000, fun _ => 0, true, 4, true, false⟩).length = 4 :=
  ⟨(c9_card_truncation (fun _ _ => 0) (fun _ _ => 0)
      ⟨20000, fun _ => 0, true, 4, true, false⟩ (by decide) (by decide)).2.1,
   (c9_card_truncation (fun _ _ => 0) (fun _ _ => 0)
      ⟨20000, fun _ => 0, true, 4, true, false⟩ (by decide) (by decide)).2.2.2⟩

/-- C10: the script never reads or writes session state: one run returns
the store untouched, the rendered page does not depend on the store, and
in particular the counter and todos entries are never created or changed. -/
theorem c10_no_session_state (intStream : ℕ → ℕ → ℤ) (normStream : ℕ → ℕ → ℚ)
    (s s' : SessionState) (e : Env) :
    (appRun intStream normStream s e).1 = s ∧
    (appRun intStream normStream s e).2 = (appRun intStream normStream s' e).2 ∧
    (appRun intStream normStream s e).1.lookup "counter" = s.lookup "counter" ∧
    (appRun intStream normStream s e).1.lookup "todos" = s.lookup "todos" :=
  ⟨rfl, rfl, rfl, rfl⟩

namespace Counter

/-- Running one more callback folds it onto the accumulated value. -/
theorem run_concat (ops : List COp) (op : COp) :
    run (ops ++ [op]) = apply (run ops) op := by
  simp [run, List.foldl_append]

/-- The counter value equals increments minus decrements since the last
reset. -/
theorem run_eq_score (ops : List COp) : run ops = score (afterLastReset ops) := by
  induction ops using List.reverseRecOn with
  | nil => rfl
  | append_singleton l a ih =>
    cases a with
    | reset =>
      have h1 : afterLastReset (l ++ [COp.reset]) = [] := by
        simp [afterLastReset, List.takeWhile]
      rw [run_concat, h1]
      rfl
    | inc =>
      have h1 : afterLastReset (l ++ [COp.inc]) = afterLastReset l ++ [COp.inc] := by
        simp [afterLastReset, List.takeWhile]
      rw [run_concat, h1, ih]
      simp [apply, score, List.count_append]
      omega
    | dec =>
      have h1 : afterLastReset (l ++ [COp.dec]) = afterLastReset l ++ [COp.dec] := by
        simp [afterLastReset, List.takeWhile]
      rw [run_concat, h1, ih]
      simp [apply, score, List.count_append]
      omega

end Counter

/-- C5: for every sequence of increment/decrement/reset callbacks from the
default 0, the counter equals the number of increments minus the number of
decrements since the last reset (all callbacks if no reset occurred), with
no bound below or above: three decrements yield -3, a trailing reset
always leaves exactly 0. -/
theorem c5_counter_semantics :
    (∀ ops : List Counter.COp,
      Counter.run ops = ((Counter.afterLastReset ops).count Counter.COp.inc : ℤ)
        - ((Counter.afterLastReset ops).count Counter.COp.dec : ℤ)) ∧
    Counter.run [Counter.COp.dec, Counter.COp.dec, Counter.COp.dec] = -3 ∧
    (∀ ops : List Counter.COp, Counter.run (ops ++ [Counter.COp.reset]) = 0) ∧
    Counter.run [] = 0 :=
  ⟨fun ops => Counter.run_eq_score ops,
   by decide,
   fun ops => by rw [Counter.run_concat]; rfl,
   rfl⟩

/-- The spec's EMI example value is wrong: with the spec's own formula,
P = 500000, annual rate 9 and n = 60 give an EMI strictly below 10379.835,
so it cannot round to 10379.84 at two decimals. -/
theorem c6_emi_counterexample :
    ¬ (2075967/200 ≤ Emi.emi 500000 9 60 ∧ Emi.emi 500000 9 60 < 2075969/200) := by
  intro h
  have h1 := h.1
  simp only [Emi.emi] at h1
  norm_num at h1

/-- C6 (amended): the EMI uses monthly rate r = rAnnual / 1200, returns
P / n when r = 0, and the compound formula otherwise; for P = 500000,
annual rate 9 and n = 60 the result lies in [10379.175, 10379.185), i.e.
rounds to 10379.18 at two decimals (not 10379.84), and for annual rate 0
the result is exactly P / n. -/
theorem c6_emi_amended :
    (∀ (P : ℚ) (n : ℕ), 1 ≤ n → Emi.emi P 0 n = P / n) ∧
    (2075835/200 ≤ Emi.emi 500000 9 60 ∧ Emi.emi 500000 9 60 < 2075837/200) := by
  refine ⟨fun P n _ => by simp [Emi.emi], ?_, ?_⟩ <;>
    (simp only [Emi.emi]; norm_num)

/-- Witness for C6 (amended): a zero-rate loan of 100 over 5 months has
EMI exactly 100 / 5. -/
theorem c6_emi_amended_witness : (1 : ℕ) ≤ 5 ∧ Emi.emi 100 0 5 = 100 / 5 :=
  ⟨by norm_num, c6_emi_amended.1 100 5 (by norm_num)⟩

/-- C7: add(text) leaves the list unchanged when the stripped text is
empty and otherwise appends exactly one item {text, done:false} at the
end; clear_completed() removes exactly the done items, keeping the rest
in their relative order (it yields a sublist whose members are exactly
the not-done items of the input). -/
theorem c7_todo_ops : ∀ (t : String) (l : List TodoItem),
    (Todo.pyStrip t = "" → Todo.add t l = l) ∧
    (Todo.pyStrip t ≠ "" → Todo.add t l = l ++ [⟨t, false⟩]) ∧
    List.Sublist (Todo.clearCompleted l) l ∧
    (∀ it ∈ Todo.clearCompleted l, it.done = false) ∧
    (∀ it ∈ l, it.done = false → it ∈ Todo.clearCompleted l) := by
  intro t l
  refine ⟨?_, ?_, List.filter_sublist l, ?_, ?_⟩
  · intro h
    simp [Todo.add, h]
  · intro h
    simp [Todo.add, h]
  · intro it hit
    have h := List.of_mem_filter hit
    simpa using h
  · intro it hit hdone
    exact List.mem_filter.mpr ⟨hit, by simp [hdone]⟩

/-- Witness for C7: adding blank text is a no-op, adding real text appends
one not-done item, and clearing removes exactly the done items in order. -/
theorem c7_todo_ops_witness :
    Todo.add "   " [⟨"Buy milk", false⟩] = [⟨"Buy milk", false⟩] ∧
    Todo.add "Buy milk" [] = [] ++ [⟨"Buy milk", false⟩] ∧
    List.Sublist (Todo.clearCompleted [⟨"a", true⟩, ⟨"b", false⟩, ⟨"c", true⟩])
      [⟨"a", true⟩, ⟨"b", false⟩, ⟨"c", true⟩] :=
  ⟨(c7_todo_ops "   " [⟨"Buy milk", false⟩]).1 (by decide),
   (c7_todo_ops "Buy milk" []).2.1 (by decide),
   (c7_todo_ops "" [⟨"a", true⟩, ⟨"b", false⟩, ⟨"c", true⟩]).2.2.1⟩

/-- C8: when parsing the uploaded bytes fails with some reason, the CSV
preview shows an error message carrying that reason instead of a table,
and the session store is returned exactly as it was: the failure is
recovered locally and nothing is mutated. -/
theorem c8_csv_error_handling
    (parse : List ℕ → Except String (List (List String)))
    (bytes : List ℕ) (s : SessionState) (reason : String)
    (h : parse bytes = Except.error reason) :
    (Csv.preview parse (some bytes) s).2
        = Csv.CsvOut.error ("Error reading CSV: " ++ reason) ∧
    (∀ r c p, (Csv.preview parse (some bytes) s).2 ≠ Csv.CsvOut.table r c p) ∧
    (Csv.preview parse (some bytes) s).1 = s := by
  refine ⟨?_, ?_, ?_⟩ <;> simp [Csv.preview, h]

/-- Witness for C8: a parser that rejects its input makes the preview
render the error message, no table, and leave the store alone. -/
theorem c8_csv_error_handling_witness :
    (Csv.preview (fun _ => Except.error "bad byte") (some [0]) []).2
        = Csv.CsvOut.error ("Error reading CSV: " ++ "bad byte") ∧
    (∀ r c p, (Csv.preview (fun _ => Except.error "bad byte") (some [0]) []).2
        ≠ Csv.CsvOut.table r c p) ∧
    (Csv.preview (fun _ => Except.error "bad byte") (some [0]) []).1 = [] :=
  c8_csv_error_handling (fun _ => Except.error "bad byte") [0] [] "bad byte" rfl

end App




